import Mathlib

/-!
Verification of the job-orchestration and result-status core of the
ai-insight-system repository, as a shallow embedding in Lean.

Embedded source files:
* `src/collectors/base_collector.py` — `CollectorStatus`, `CollectorResult`
  (with `__post_init__`), `BaseCollector.run`;
* `src/analyzers/base_analyzer.py` — `AnalysisStatus`, `AnalysisResult`,
  `BaseAnalyzer.run` (with the `_status` / `_last_result` instance state);
* `src/scheduler/jobs.py` — `DailyJobManager.run_collection_job`,
  `run_analysis_job`, `run_report_job`, with the manager state
  `_collected_data` and the analyzers' retained results.

Conventions of the embedding:
* A Python call that can raise is modelled by `PyResult α`: either a normal
  return or an exception carrying `str(e)`.
* A unit's abstract body (`collect()` / `analyze()` / `validate_config()`)
  is a field of the unit record, so theorems quantify over every possible
  unit behaviour.
* Timestamps (`datetime.now()`) are not modelled; the `collected_at` /
  `analyzed_at` fields are kept as opaque `Nat` placeholders defaulted to 0.
* Python truthiness of payload values (`if insight_result.result:`) is
  modelled by an explicit truthiness function on the payload type; `None`
  is always falsy.
-/

namespace AIInsight

/-- Outcome of a Python call: a normal return, or a raised exception
carrying the exception's string representation `str(e)`. -/
inductive PyResult (α : Type) where
  | ok (a : α)
  | exn (msg : String)
deriving DecidableEq

/-- `CollectorStatus` enum of `base_collector.py` (the `PARTIAL` member is
named `partialResult` here). -/
inductive CollectorStatus where
  | pending
  | running
  | success
  | failed
  | partialResult
deriving DecidableEq

/-- `AnalysisStatus` enum of `base_analyzer.py`. -/
inductive AnalysisStatus where
  | pending
  | running
  | success
  | failed
  | partialResult
deriving DecidableEq

/-- The `CollectorResult` dataclass of `base_collector.py`: status, payload
list `data`, error strings, free-form metadata, a timestamp placeholder,
`items_count` and the provenance label `source`. -/
structure CollectorResult (T : Type) where
  status : CollectorStatus
  data : List T := []
  errors : List String := []
  metadata : List (String × String) := []
  collected_at : Nat := 0
  items_count : Nat := 0
  source : String := ""
deriving DecidableEq

/-- `CollectorResult.__post_init__`: dataclass construction runs this hook,
which replaces a falsy (zero) `items_count` by `len(self.data)`. Every
construction of a `CollectorResult` in the embedding goes through it. -/
def CollectorResult.post_init {T : Type} (r : CollectorResult T) : CollectorResult T :=
  if r.items_count = 0 then { r with items_count := r.data.length } else r

/-- A collection unit (`BaseCollector` subclass instance): its name and the
outcomes of its two abstract methods. `validate_config` and `collect` may
themselves raise, hence `PyResult`. -/
structure BaseCollector (T : Type) where
  name : String
  validate_config : PyResult Bool
  collect : PyResult (CollectorResult T)

/-- `BaseCollector.run` of `base_collector.py`. Returns the unit's final
`_status` together with the returned envelope. The `RUNNING` transition at
entry is not observable in the final state and is not modelled. A false
`validate_config` raises `ValueError("Invalid configuration for <name>")`,
which the same `except Exception` clause converts to a `Failed` envelope,
exactly as a raising body is. On a normal body return the wrapper stamps
`source` and sets the unit's `_status` (not the envelope's `status` field)
to `PARTIAL` or `SUCCESS` according to the envelope's error list. -/
def BaseCollector.run {T : Type} (c : BaseCollector T) :
    CollectorStatus × CollectorResult T :=
  match c.validate_config with
  | .exn m =>
      (.failed, CollectorResult.post_init { status := .failed, errors := [m], source := c.name })
  | .ok false =>
      (.failed, CollectorResult.post_init
        { status := .failed,
          errors := ["Invalid configuration for " ++ c.name],
          source := c.name })
  | .ok true =>
      match c.collect with
      | .exn m =>
          (.failed, CollectorResult.post_init { status := .failed, errors := [m], source := c.name })
      | .ok r0 =>
          let r := { r0 with source := c.name }
          if r.errors = [] then (.success, r) else (.partialResult, r)

/-- `BaseCollector._create_result`: builds a `SUCCESS` envelope when no
errors are given and a `PARTIAL` one otherwise (dataclass construction runs
`__post_init__`). -/
def BaseCollector.create_result {T : Type} (c : BaseCollector T)
    (data : List T) (errors : List String) (metadata : List (String × String)) :
    CollectorResult T :=
  CollectorResult.post_init
    { status := if errors = [] then .success else .partialResult,
      data := data,
      errors := errors,
      metadata := metadata,
      source := c.name }

/-- The `AnalysisResult` dataclass of `base_analyzer.py`. `result` is the
derived payload (`None` when absent). -/
structure AnalysisResult (R : Type) where
  status : AnalysisStatus
  result : Option R := none
  insights : List String := []
  metadata : List (String × String) := []
  analyzed_at : Nat := 0
  source : String := ""
  errors : List String := []
deriving DecidableEq

/-- The mutable instance state of an analyzer: its `_status` field and the
retained `_last_result` (absent before the first normally-returning run). -/
structure AnalyzerState (R : Type) where
  status : AnalysisStatus
  last_result : Option (AnalysisResult R)
deriving DecidableEq

/-- An analysis unit (`BaseAnalyzer` subclass instance): its name and the
outcome of its abstract `analyze` body on each input. -/
structure BaseAnalyzer (T R : Type) where
  name : String
  analyze : T → PyResult (AnalysisResult R)

/-- `BaseAnalyzer.run` of `base_analyzer.py`, as a state transformer on the
analyzer's instance state. On a normal body return it stamps `source`,
stores the envelope in `_last_result`, and sets `_status` to `PARTIAL` or
`SUCCESS` by the envelope's error list (the envelope's own `status` field
is returned unchanged). On a raising body it sets `_status := FAILED`,
leaves `_last_result` untouched, and returns a fresh `FAILED` envelope
whose sole error is `str(e)`. -/
def BaseAnalyzer.run {T R : Type} (a : BaseAnalyzer T R)
    (st : AnalyzerState R) (data : T) :
    AnalyzerState R × AnalysisResult R :=
  match a.analyze data with
  | .exn m =>
      ({ status := .failed, last_result := st.last_result },
       { status := .failed, errors := [m], source := a.name })
  | .ok r0 =>
      let r := { r0 with source := a.name }
      ({ status := if r.errors = [] then .success else .partialResult,
         last_result := some r },
       r)

/-- Claim C4: for every collection unit, when `validate_config()` returns
false, `run()` returns a `Failed` envelope with exactly the single error
`"Invalid configuration for <unit name>"`, empty payload, and the unit's
name as source; the body `collect` is never invoked (the result is the
same for every possible body, which the universal quantification over
`body` expresses). -/
theorem c4_invalid_config (T : Type) (name : String)
    (body : PyResult (CollectorResult T)) :
    BaseCollector.run { name := name, validate_config := .ok false, collect := body } =
      (CollectorStatus.failed,
       { status := .failed,
         data := [],
         errors := ["Invalid configuration for " ++ name],
         metadata := [],
         collected_at := 0,
         items_count := 0,
         source := name }) := by
  simp [BaseCollector.run, CollectorResult.post_init]

/-- Claim C5: for every unit, collector or analyzer, whose body raises an
exception with message `m`, `run()` does not re-raise: it returns a
`Failed` envelope whose error list is exactly `[m]`, with empty/absent
payload and `source` set to the unit's name (that `run` is total in the
embedding is exactly the no-re-raise guarantee). -/
theorem c5_body_raises (T R : Type) (name m : String)
    (st : AnalyzerState R) (d : T) :
    (BaseCollector.run { name := name, validate_config := .ok true, collect := .exn m } =
      ((CollectorStatus.failed,
       { status := .failed, data := [], errors := [m], metadata := [],
         collected_at := 0, items_count := 0, source := name }) :
        CollectorStatus × CollectorResult T)) ∧
    ((BaseAnalyzer.run { name := name, analyze := fun _ => .exn m } st d).2 =
      { status := .failed, result := none, insights := [], metadata := [],
        analyzed_at := 0, source := name, errors := [m] }) := by
  constructor
  · simp [BaseCollector.run, CollectorResult.post_init]
  · simp [BaseAnalyzer.run]

/-- Claim C9: a `CollectorResult` constructed without overriding
`items_count` (so the field holds its default 0 when `__post_init__`
runs) ends with `items_count` equal to the length of its payload list. -/
theorem c9_items_count (T : Type) (st : CollectorStatus) (data : List T)
    (errs : List String) (md : List (String × String)) (ts : Nat) (src : String) :
    (CollectorResult.post_init
      { status := st, data := data, errors := errs, metadata := md,
        collected_at := ts, items_count := 0, source := src }).items_count =
      data.length := by
  simp [CollectorResult.post_init]

/-- Claim C2 counterexample: a collection unit whose body returns an
envelope with status `SUCCESS` and a non-empty error list. The claim says
the envelope returned by `run()` then has status `Partial`; in the code
`run()` only downgrades the unit's own `_status` attribute and returns the
envelope's `status` field untouched, so the returned envelope still has
status `SUCCESS`. -/
theorem c2_counterexample :
    ((BaseCollector.run
        { name := "github_collector",
          validate_config := .ok true,
          collect := .ok { status := .success, data := [1], errors := ["rate limited"],
                           items_count := 1 } } : CollectorStatus × CollectorResult Nat).2.errors
        ≠ []) ∧
    ((BaseCollector.run
        { name := "github_collector",
          validate_config := .ok true,
          collect := .ok { status := .success, data := [1], errors := ["rate limited"],
                           items_count := 1 } } : CollectorStatus × CollectorResult Nat).2.status
        ≠ CollectorStatus.partialResult) := by
  constructor
  · simp [BaseCollector.run]
  · simp [BaseCollector.run]

/-- Claim C2, amended: when the unit body returns normally, `run()` sets
the unit's own `_status` attribute to `Partial` iff the returned envelope
carries at least one error string (and to `Success` otherwise), while the
envelope itself is returned with its `status` field exactly as the body
set it. This holds for collectors and analyzers alike. -/
theorem c2_amended (T R : Type) (name : String) (r : CollectorResult T)
    (ar : AnalysisResult R) (st : AnalyzerState R) (d : T) :
    ((BaseCollector.run { name := name, validate_config := .ok true, collect := .ok r }).1 =
        (if r.errors = [] then CollectorStatus.success else CollectorStatus.partialResult) ∧
     (BaseCollector.run { name := name, validate_config := .ok true, collect := .ok r }).2.status =
        r.status) ∧
    ((BaseAnalyzer.run { name := name, analyze := fun _ => .ok ar } st d).1.status =
        (if ar.errors = [] then AnalysisStatus.success else AnalysisStatus.partialResult) ∧
     (BaseAnalyzer.run { name := name, analyze := fun _ => .ok ar } st d).2.status =
        ar.status) := by
  refine ⟨⟨?_, ?_⟩, ?_, ?_⟩ <;>
    simp [BaseCollector.run, BaseAnalyzer.run] <;>
    split <;> rfl

/-- The collect-stage output mapping of `DailyJobManager.run_collection_job`
(`jobs.py` line 40): the dict with exactly the named slots `models`,
`papers`, `repos`, `hf_models` and the `errors` slot, each initialised
empty. -/
structure CollectOutput (T : Type) where
  models : List T
  papers : List T
  repos : List T
  hf_models : List T
  errors : List String
deriving DecidableEq

/-- The initial value of the collect-stage output mapping. -/
def collectInit (T : Type) : CollectOutput T :=
  { models := [], papers := [], repos := [], hf_models := [], errors := [] }

/-- One iteration of the aggregation loop of `run_collection_job`
(`jobs.py` lines 48-55) on a pair of a source name and that source's
gathered outcome. An outcome that is an exception appends
`"<name>: <message>"` to the errors slot; otherwise the envelope (a
dataclass instance, always truthy in Python) has its `data` assigned to
the slot selected by the name — no error is appended regardless of the
envelope's status. -/
def collectStep {T : Type} (acc : CollectOutput T)
    (p : String × PyResult (CollectorResult T)) : CollectOutput T :=
  match p.2 with
  | .exn m => { acc with errors := acc.errors ++ [p.1 ++ ": " ++ m] }
  | .ok r =>
      if p.1 = "ai_models" then { acc with models := r.data }
      else if p.1 = "github" then { acc with repos := r.data }
      else if p.1 = "huggingface" then { acc with hf_models := r.data }
      else if p.1 = "arxiv" then { acc with papers := r.data }
      else acc

/-- The whole aggregation loop of `run_collection_job` over the zipped
list of source names and gathered outcomes. -/
def aggregateCollected {T : Type}
    (os : List (String × PyResult (CollectorResult T))) : CollectOutput T :=
  os.foldl collectStep (collectInit T)

/-- The fan-out of `run_collection_job` (`jobs.py` lines 41-48):
`asyncio.gather` of the four `_safe_collect` tasks, zipped with the
configured source names. `_safe_collect` re-raises any exception out of
`collector.run()`, but `run()` catches every exception and returns an
envelope, so each gathered outcome is a normal value (`.ok`); the
aggregation loop's exception branch is defensive dead code on this path. -/
def run_collection_tasks {T : Type} (c1 c2 c3 c4 : BaseCollector T) :
    List (String × PyResult (CollectorResult T)) :=
  [("ai_models", .ok (BaseCollector.run c1).2),
   ("github", .ok (BaseCollector.run c2).2),
   ("huggingface", .ok (BaseCollector.run c3).2),
   ("arxiv", .ok (BaseCollector.run c4).2)]

/-- The Pipeline Run State of `DailyJobManager`: `_collected_data` (the
empty dict at construction, modelled `none`; always a full output mapping
after a collect run), the insight analyzer's instance state, the model
(structural) analyzer's instance state, and the model analyzer's
`_last_results` list assigned by the analysis job (`getattr` default
`[]`). The `_last_collection` timestamp map is not modelled (time is out
of the embedding). -/
structure ManagerState (T RI RM : Type) where
  collected_data : Option (CollectOutput T)
  insight_state : AnalyzerState RI
  model_state : AnalyzerState RM
  model_last_results : List RM

/-- `DailyJobManager.run_collection_job` (`jobs.py` lines 37-62), over the
four collection units, the memory store's behaviour (`ms`) and the manager
state. The aggregated mapping is committed into `_collected_data` before
the store call; the store call sits outside any try/except, so if it
raises the exception propagates out of the stage (the second component is
then `.exn`), while the state commit has already happened. -/
def run_collection_job {T RI RM : Type} (c1 c2 c3 c4 : BaseCollector T)
    (ms : Option (PyResult Unit)) (st : ManagerState T RI RM) :
    ManagerState T RI RM × PyResult (CollectOutput T) :=
  let results := aggregateCollected (run_collection_tasks c1 c2 c3 c4)
  let st1 := { st with collected_data := some results }
  let outcome : PyResult (CollectOutput T) :=
    match ms with
    | some (.exn m) => .exn m
    | _ => .ok results
  (st1, outcome)

/-- The analyze-stage output of `run_analysis_job`: either the early
`{"error": msg}` dict returned when no collected data is present, or the
`{"insights": ..., "model_analyses": ..., "errors": ...}` dict. -/
inductive AnalysisJobOutput (RI RM : Type) where
  | errorOut (msg : String)
  | analysisOut (insights : Option RI) (model_analyses : List RM) (errors : List String)
deriving DecidableEq

/-- The `if insight_result.result:` guard of `jobs.py` line 73: the
insights slot is filled with the insight analyzer's returned payload only
when that payload is present and truthy. -/
def pickInsights {RI : Type} (trI : RI → Bool) : Option RI → Option RI
  | some v => if trI v then some v else none
  | none => none

/-- One iteration of the structural-analysis loop of `run_analysis_job`
(`jobs.py` lines 77-85), threading the model analyzer's instance state and
the accumulated `model_analyses` list. The per-item `try` isolates the
item: `run()` never raises, and a failed item's envelope carries no truthy
`result`, so the item is skipped and the loop continues. -/
def analysisStep {T RM : Type} (modelA : BaseAnalyzer T RM) (trM : RM → Bool)
    (acc : AnalyzerState RM × List RM) (item : T) : AnalyzerState RM × List RM :=
  let step := BaseAnalyzer.run modelA acc.1 item
  match step.2.result with
  | some v => if trM v then (step.1, acc.2 ++ [v]) else (step.1, acc.2)
  | none => (step.1, acc.2)

/-- The per-item contribution of the structural-analysis loop: the item's
analysis payload when the body returned normally with a truthy `result`,
nothing when the body raised or the `result` was absent or falsy. -/
def analysisPick {T RM : Type} (modelA : BaseAnalyzer T RM) (trM : RM → Bool)
    (t : T) : Option RM :=
  match modelA.analyze t with
  | .ok r =>
      match r.result with
      | some v => if trM v then some v else none
      | none => none
  | .exn _ => none

/-- `DailyJobManager.run_analysis_job` (`jobs.py` lines 64-92). `config`
models `self.config`, which the method has access to but never reads (the
structural cap is the hard-coded literal `5` of line 77, `[:5]`). When
`_collected_data` is empty the method returns the `{"error": "No data
available"}` dict before touching any analyzer or the store. Otherwise it
runs the insight analyzer on the whole collected mapping, runs the model
analyzer on each of the first five `hf_models` items, commits the insight
analyzer's state, the model analyzer's state and `_last_results`, and then
calls the store; the store call sits outside any try/except, so a raising
store propagates (after the state commits). The output `errors` list is
only appended to inside two `except` clauses whose tried calls are total
in the embedding, so it stays empty. -/
def run_analysis_job {T RI RM : Type} (_config : List (String × String))
    (insightA : BaseAnalyzer (CollectOutput T) RI) (modelA : BaseAnalyzer T RM)
    (trI : RI → Bool) (trM : RM → Bool) (ms : Option (PyResult Unit))
    (st : ManagerState T RI RM) :
    ManagerState T RI RM × PyResult (AnalysisJobOutput RI RM) :=
  match st.collected_data with
  | none => (st, .ok (.errorOut "No data available"))
  | some data =>
      let istep := BaseAnalyzer.run insightA st.insight_state data
      let insights := pickInsights trI istep.2.result
      let loop := (data.hf_models.take 5).foldl (analysisStep modelA trM)
        (st.model_state, [])
      let st1 : ManagerState T RI RM :=
        { st with insight_state := istep.1, model_state := loop.1,
                  model_last_results := loop.2 }
      let outcome : PyResult (AnalysisJobOutput RI RM) :=
        match ms with
        | some (.exn m) => .exn m
        | _ => .ok (.analysisOut insights loop.2 [])
      (st1, outcome)

/-- The report descriptor returned by a report delegate's `generate`
(`{file_path, title, status}`; the status enum's `.value` string). -/
structure GenReport where
  file_path : Option String
  title : String
  status : String
deriving DecidableEq

/-- The `insight_report` entry of the report-stage output
(`jobs.py` line 102). -/
structure InsightReportEntry where
  path : Option String
  title : String
  status : String
deriving DecidableEq

/-- A `model_reports` entry of the report-stage output
(`jobs.py` line 108). -/
structure ModelReportEntry where
  path : Option String
  model : String
  status : String
deriving DecidableEq

/-- The output mapping of `run_report_job`. -/
structure ReportJobOutput where
  insight_report : Option InsightReportEntry
  model_reports : List ModelReportEntry
  errors : List String
deriving DecidableEq

/-- `DailyJobManager.run_report_job` (`jobs.py` lines 94-113). The insight
report is generated from the insight analyzer's retained `_last_result`
when that envelope is present and its `result` is truthy; a raising
insight delegate appends to `errors`. The model-report loop iterates the
retained `_last_results`, one `generate` per entry; a raising entry is
logged and skipped (no error entry). The report delegates are external
collaborators, modelled by their call outcomes `genI` / `genM`; `nameM`
models the `model_analysis.model_name` attribute. -/
def run_report_job {T RI RM : Type} (genI : RI → PyResult GenReport)
    (genM : RM → PyResult GenReport) (nameM : RM → String) (trI : RI → Bool)
    (st : ManagerState T RI RM) : ReportJobOutput :=
  let insightPart : Option InsightReportEntry × List String :=
    match st.insight_state.last_result with
    | some ar =>
        match ar.result with
        | some v =>
            if trI v then
              match genI v with
              | .ok rep => (some { path := rep.file_path, title := rep.title,
                                   status := rep.status }, [])
              | .exn m => (none, ["Insight report generation: " ++ m])
            else (none, [])
        | none => (none, [])
    | none => (none, [])
  let modelReports : List ModelReportEntry :=
    st.model_last_results.filterMap (fun r =>
      match genM r with
      | .ok rep => some { path := rep.file_path, model := nameM r, status := rep.status }
      | .exn _ => none)
  { insight_report := insightPart.1, model_reports := modelReports,
    errors := insightPart.2 }

/-- The error entry a gathered outcome contributes to the collect stage's
run-level error list: `"<name>: <message>"` when the outcome is an
exception, nothing otherwise. -/
def fmtGatherError {T : Type} (p : String × PyResult (CollectorResult T)) :
    Option String :=
  match p.2 with
  | .exn m => some (p.1 ++ ": " ++ m)
  | .ok _ => none

theorem collectStep_errors {T : Type} (acc : CollectOutput T)
    (p : String × PyResult (CollectorResult T)) :
    (collectStep acc p).errors = acc.errors ++ (fmtGatherError p).toList := by
  rcases p with ⟨n, r⟩
  cases r with
  | exn m => simp [collectStep, fmtGatherError]
  | ok env =>
      simp only [collectStep, fmtGatherError, Option.toList]
      repeat' split
      all_goals simp

theorem foldl_collectStep_errors {T : Type}
    (os : List (String × PyResult (CollectorResult T))) :
    ∀ acc : CollectOutput T,
      (os.foldl collectStep acc).errors = acc.errors ++ os.filterMap fmtGatherError := by
  induction os with
  | nil => intro acc; simp
  | cons p os ih =>
      intro acc
      rw [List.foldl_cons, ih, collectStep_errors, List.filterMap_cons]
      cases h : fmtGatherError p <;> simp [h]

/-- Claim C1 counterexample: four configured collection units where unit B
(the `github` source) has a body that raises a network error and the
others succeed (A returns 10 items, C and D return 0 items). Unit B's
`run()` converts the raise into a `Failed` envelope, so the gathered
outcome is a normal value and the aggregation loop's exception branch is
not taken: the stage output's error list is empty — not
`["github: network error"]` as the claim requires — while B's slot holds
the envelope's empty data and the other slots are populated. -/
theorem c1_counterexample :
    (BaseCollector.run
      (⟨"github_collector", .ok true, .exn "network error"⟩ : BaseCollector Nat)).2.status =
        CollectorStatus.failed ∧
    (run_collection_job
        (⟨"ai_model_collector", .ok true,
          .ok { status := .success, data := [1, 2, 3, 4, 5, 6, 7, 8, 9, 10] }⟩ : BaseCollector Nat)
        ⟨"github_collector", .ok true, .exn "network error"⟩
        ⟨"huggingface_collector", .ok true, .ok { status := .success, data := [] }⟩
        ⟨"arxiv_collector", .ok true, .ok { status := .success, data := [] }⟩
        none
        (⟨none, ⟨.pending, none⟩, ⟨.pending, none⟩, []⟩ : ManagerState Nat Nat Nat)).2 =
      .ok { models := [1, 2, 3, 4, 5, 6, 7, 8, 9, 10], papers := [], repos := [],
            hf_models := [], errors := [] } :=
  ⟨rfl, rfl⟩

/-- Claim C1, amended: the collect stage's run-level error list receives
an entry `"<unit name>: <message>"` exactly for the units whose gathered
task outcome was itself a raised exception (the defensively handled
should-not-happen path); a unit whose `run()` returned a `Failed` or
`Partial` envelope contributes no error entry, its slot simply receives
the envelope's (possibly empty) data. Since `run()` catches every
exception, the stage built over actual collection units always has an
empty error list, even when a unit's body raises. -/
theorem c1_amended (T : Type)
    (os : List (String × PyResult (CollectorResult T)))
    (c1 c2 c3 c4 : BaseCollector T) :
    (aggregateCollected os).errors = os.filterMap fmtGatherError ∧
    (aggregateCollected (run_collection_tasks c1 c2 c3 c4)).errors = [] := by
  constructor
  · rw [aggregateCollected, foldl_collectStep_errors]
    simp [collectInit]
  · rw [aggregateCollected, foldl_collectStep_errors]
    simp [collectInit, run_collection_tasks, fmtGatherError]

/-- Claim C3 counterexample: an analyze-stage run with collected data
present and a memory store whose `store()` call raises. The stage's
outcome is the propagated exception (`.exn`), not the normal output
mapping: the `store` call sits outside any try/except in
`run_analysis_job`, so the claim's "does not propagate" is false. -/
theorem c3_counterexample :
    (run_analysis_job []
        (⟨"insight_analyzer", fun _ => .ok { status := .success, result := some 1 }⟩ :
          BaseAnalyzer (CollectOutput Nat) Nat)
        ⟨"model_analyzer", fun t => .ok { status := .success, result := some t }⟩
        (fun _ => true) (fun _ => true)
        (some (.exn "memory store unavailable"))
        { collected_data :=
            some { models := [], papers := [], repos := [], hf_models := [], errors := [] },
          insight_state := ⟨.pending, none⟩, model_state := ⟨.pending, none⟩,
          model_last_results := [] }).2 =
      .exn "memory store unavailable" := rfl

/-- Claim C3, amended: in both the collect stage and the analyze stage the
memory store's `store()` call is not wrapped in any try/except, so when it
raises the exception propagates out of the stage (the stage's outcome is
the exception rather than its normal output mapping); the stage's state
commits have already happened by then. -/
theorem c3_amended (T RI RM : Type) (c1 c2 c3 c4 : BaseCollector T)
    (cfg : List (String × String)) (iA : BaseAnalyzer (CollectOutput T) RI)
    (mA : BaseAnalyzer T RM) (trI : RI → Bool) (trM : RM → Bool)
    (st : ManagerState T RI RM) (data : CollectOutput T)
    (ist : AnalyzerState RI) (mst : AnalyzerState RM) (lst : List RM)
    (m : String) :
    (run_collection_job c1 c2 c3 c4 (some (.exn m)) st).2 = .exn m ∧
    (run_analysis_job cfg iA mA trI trM (some (.exn m))
        { collected_data := some data, insight_state := ist, model_state := mst,
          model_last_results := lst }).2 = .exn m :=
  ⟨rfl, rfl⟩

/-- Claim C6 counterexample: a collect-stage run in which all four
collection units succeed but the configured memory store's `store()` call
raises. The stage's outcome is the propagated exception, refuting the
claim's conjunct that the stage itself never raises (the unit fan-out is
not the cause: every unit returned a `SUCCESS` envelope). -/
theorem c6_counterexample :
    (run_collection_job
        (⟨"ai_model_collector", .ok true, .ok { status := .success, data := [1] }⟩ :
          BaseCollector Nat)
        ⟨"github_collector", .ok true, .ok { status := .success, data := [2] }⟩
        ⟨"huggingface_collector", .ok true, .ok { status := .success, data := [3] }⟩
        ⟨"arxiv_collector", .ok true, .ok { status := .success, data := [4] }⟩
        (some (.exn "db write failed"))
        (⟨none, ⟨.pending, none⟩, ⟨.pending, none⟩, []⟩ : ManagerState Nat Nat Nat)).2 =
      .exn "db write failed" := rfl

/-- Claim C6, amended: whatever the four collection units do, the collect
stage's output mapping holds exactly one named slot per configured source
plus the errors slot (the `CollectOutput` record), each source's slot is
determined by that source's own `run()` outcome alone (isolation), the
run-level error list is empty, and the mapping is committed into
`_collected_data` whatever the memory store does; the stage returns the
mapping without raising provided any configured memory store's `store()`
call returns normally (if it raises, the exception propagates — see the
counterexample). -/
theorem c6_amended (T RI RM : Type) (c1 c2 c3 c4 : BaseCollector T)
    (ms : Option (PyResult Unit)) (st : ManagerState T RI RM) (u : Unit) :
    ((aggregateCollected (run_collection_tasks c1 c2 c3 c4)).models =
        (BaseCollector.run c1).2.data ∧
     (aggregateCollected (run_collection_tasks c1 c2 c3 c4)).repos =
        (BaseCollector.run c2).2.data ∧
     (aggregateCollected (run_collection_tasks c1 c2 c3 c4)).hf_models =
        (BaseCollector.run c3).2.data ∧
     (aggregateCollected (run_collection_tasks c1 c2 c3 c4)).papers =
        (BaseCollector.run c4).2.data ∧
     (aggregateCollected (run_collection_tasks c1 c2 c3 c4)).errors = []) ∧
    (run_collection_job c1 c2 c3 c4 ms st).1.collected_data =
      some (aggregateCollected (run_collection_tasks c1 c2 c3 c4)) ∧
    (run_collection_job c1 c2 c3 c4 none st).2 =
      .ok (aggregateCollected (run_collection_tasks c1 c2 c3 c4)) ∧
    (run_collection_job c1 c2 c3 c4 (some (.ok u)) st).2 =
      .ok (aggregateCollected (run_collection_tasks c1 c2 c3 c4)) :=
  ⟨⟨rfl, rfl, rfl, rfl, rfl⟩, rfl, rfl, rfl⟩

/-- Claim C7: calling the analyze stage while `_collected_data` is still
the empty initial cache returns the single-error `{"error": "No data
available"}` outcome, invokes no analysis unit (the result is the same
for every insight and model analyzer, every truthiness function and every
memory store behaviour), and leaves the whole manager state — collected
cache, both analyzers' instance states, and the retained structural
results — unchanged. -/
theorem c7_no_data (T RI RM : Type) (cfg : List (String × String))
    (iA : BaseAnalyzer (CollectOutput T) RI) (mA : BaseAnalyzer T RM)
    (trI : RI → Bool) (trM : RM → Bool) (ms : Option (PyResult Unit))
    (ist : AnalyzerState RI) (mst : AnalyzerState RM) (lst : List RM) :
    run_analysis_job cfg iA mA trI trM ms
        { collected_data := none, insight_state := ist, model_state := mst,
          model_last_results := lst } =
      ({ collected_data := none, insight_state := ist, model_state := mst,
         model_last_results := lst },
       .ok (.errorOut "No data available")) := rfl

theorem analysisStep_foldl {T RM : Type} (mA : BaseAnalyzer T RM)
    (trM : RM → Bool) (l : List T) :
    ∀ (st0 : AnalyzerState RM) (acc : List RM),
      (l.foldl (analysisStep mA trM) (st0, acc)).2 =
        acc ++ l.filterMap (analysisPick mA trM) := by
  induction l with
  | nil => intro st0 acc; simp
  | cons t l ih =>
      intro st0 acc
      rw [List.foldl_cons, List.filterMap_cons]
      cases h : mA.analyze t with
      | exn m =>
          rw [show analysisStep mA trM (st0, acc) t =
              ({ status := .failed, last_result := st0.last_result }, acc) by
            simp [analysisStep, BaseAnalyzer.run, h]]
          rw [ih]
          simp [analysisPick, h]
      | ok r0 =>
          cases hr : r0.result with
          | none =>
              rw [show analysisStep mA trM (st0, acc) t =
                  ((BaseAnalyzer.run mA st0 t).1, acc) by
                simp [analysisStep, BaseAnalyzer.run, h, hr]]
              rw [ih]
              simp [analysisPick, h, hr]
          | some v =>
              cases htr : trM v with
              | false =>
                  rw [show analysisStep mA trM (st0, acc) t =
                      ((BaseAnalyzer.run mA st0 t).1, acc) by
                    simp [analysisStep, BaseAnalyzer.run, h, hr, htr]]
                  rw [ih]
                  simp [analysisPick, h, hr, htr]
              | true =>
                  rw [show analysisStep mA trM (st0, acc) t =
                      ((BaseAnalyzer.run mA st0 t).1, acc ++ [v]) by
                    simp [analysisStep, BaseAnalyzer.run, h, hr, htr]]
                  rw [ih]
                  simp [analysisPick, h, hr, htr]

/-- Modelled from the spec: the structural analysis unit runs over "a
bounded-size subset (first N, N fixed by configuration — default cap of
5)" of the collected category; the subset for a configured cap N is the
first N items. The repository's configuration (`SchedulerSettings` in
`src/config/settings.py`) declares no such cap, and `run_analysis_job`
slices with the hard-coded literal `[:5]`, so this spec-side definition
exists only to be compared with the code. -/
def specStructuralSubset {T : Type} (cap : Nat) (l : List T) : List T :=
  l.take cap

/-- Claim C8 counterexample: a manager whose `config` carries a structural
cap of 2 and whose collected `hf_models` holds 8 items. The claim says N
is fixed by configuration, so the first-N subset would be the first 2
items; the code ignores the configuration and analyzes the hard-coded
first 5 items — the retained structural results are `[1, 2, 3, 4, 5]`,
not the spec-modelled `[1, 2]`. -/
theorem c8_counterexample :
    (run_analysis_job [("structural_analysis_cap", "2")]
        (⟨"insight_analyzer", fun _ => .ok { status := .success, result := some 0 }⟩ :
          BaseAnalyzer (CollectOutput Nat) Nat)
        ⟨"model_analyzer", fun t => .ok { status := .success, result := some t }⟩
        (fun _ => true) (fun _ => true) none
        { collected_data :=
            some { models := [], papers := [], repos := [],
                   hf_models := [1, 2, 3, 4, 5, 6, 7, 8], errors := [] },
          insight_state := ⟨.pending, none⟩, model_state := ⟨.pending, none⟩,
          model_last_results := [] }).1.model_last_results = [1, 2, 3, 4, 5] ∧
    specStructuralSubset 2 [1, 2, 3, 4, 5, 6, 7, 8] = [1, 2] ∧
    ([1, 2, 3, 4, 5] : List Nat) ≠ [1, 2] :=
  ⟨rfl, rfl, by decide⟩

/-- Claim C8, amended: the structural analysis unit is run once per item
over exactly the first 5 items of the collected `hf_models` category —
the cap is the hard-coded literal `5`, and the manager's configuration is
never consulted (the result is the same for every `cfg`). Each per-item
run is isolated: an item whose analysis body raises, or whose envelope
carries no truthy payload, is skipped and contributes nothing, while the
remaining items are still processed (the `filterMap` over the first five
items). The resulting sequence is committed as the model analyzer's
retained `_last_results` and, when the memory store does not raise,
returned in the output's `model_analyses` slot. -/
theorem c8_amended (T RI RM : Type) (cfg : List (String × String))
    (iA : BaseAnalyzer (CollectOutput T) RI) (mA : BaseAnalyzer T RM)
    (trI : RI → Bool) (trM : RM → Bool) (ms : Option (PyResult Unit))
    (data : CollectOutput T) (ist : AnalyzerState RI) (mst : AnalyzerState RM)
    (lst : List RM) (u : Unit) :
    (run_analysis_job cfg iA mA trI trM ms
        { collected_data := some data, insight_state := ist, model_state := mst,
          model_last_results := lst }).1.model_last_results =
      (data.hf_models.take 5).filterMap (analysisPick mA trM) ∧
    (run_analysis_job cfg iA mA trI trM none
        { collected_data := some data, insight_state := ist, model_state := mst,
          model_last_results := lst }).2 =
      .ok (.analysisOut (pickInsights trI (BaseAnalyzer.run iA ist data).2.result)
        ((data.hf_models.take 5).filterMap (analysisPick mA trM)) []) ∧
    (run_analysis_job cfg iA mA trI trM (some (.ok u))
        { collected_data := some data, insight_state := ist, model_state := mst,
          model_last_results := lst }).2 =
      .ok (.analysisOut (pickInsights trI (BaseAnalyzer.run iA ist data).2.result)
        ((data.hf_models.take 5).filterMap (analysisPick mA trM)) []) := by
  refine ⟨?_, ?_, ?_⟩ <;>
    simp [run_analysis_job, analysisStep_foldl]

/-- Claim C10: when an analyzer's body raises, its retained `_last_result`
is left exactly as it was (still the envelope of the most recent
normally-returning run, or absent if there was none); consequently a
report stage run after such a failed analysis still generates the insight
report from the stale retained envelope rather than skipping it: whenever
the pre-failure retained envelope carries a truthy payload and the insight
report delegate succeeds on it, the report output's `insight_report` slot
holds that delegate's descriptor. -/
theorem c10_stale_last_result (T RI RM : Type) (cfg : List (String × String))
    (iA : BaseAnalyzer (CollectOutput T) RI) (mA : BaseAnalyzer T RM)
    (trI : RI → Bool) (trM : RM → Bool) (ms : Option (PyResult Unit))
    (st : ManagerState T RI RM) (data : CollectOutput T) (m : String)
    (genI : RI → PyResult GenReport) (genM : RM → PyResult GenReport)
    (nameM : RM → String)
    (hc : st.collected_data = some data) (hr : iA.analyze data = .exn m) :
    (run_analysis_job cfg iA mA trI trM ms st).1.insight_state.last_result =
      st.insight_state.last_result ∧
    (∀ (ar : AnalysisResult RI) (v : RI) (rep : GenReport),
      st.insight_state.last_result = some ar → ar.result = some v →
      trI v = true → genI v = .ok rep →
      (run_report_job genI genM nameM trI
          (run_analysis_job cfg iA mA trI trM ms st).1).insight_report =
        some { path := rep.file_path, title := rep.title, status := rep.status }) := by
  have h1 : (run_analysis_job cfg iA mA trI trM ms st).1.insight_state =
      { status := .failed, last_result := st.insight_state.last_result } := by
    simp [run_analysis_job, hc, BaseAnalyzer.run, hr]
  constructor
  · rw [h1]
  · intro ar v rep har hv htr hg
    simp [run_report_job, h1, har, hv, htr, hg]

/-- Witness for C10 at a concrete input: the insight analyzer retains a
prior envelope with payload 7; its body then raises, the analysis stage
runs and fails, and the subsequent report stage still produces the insight
report generated from the stale payload. -/
theorem c10_witness :
    (run_report_job
      (fun _ =>
        .ok { file_path := some "reports/insight.pptx", title := "AI Insight Report",
              status := "completed" })
      (fun _ => .ok { file_path := none, title := "model", status := "completed" })
      (fun _ => "model") (fun _ => true)
      (run_analysis_job []
        (⟨"insight_analyzer", fun _ => .exn "LLM unavailable"⟩ :
          BaseAnalyzer (CollectOutput Nat) Nat)
        (⟨"model_analyzer", fun t => .ok { status := .success, result := some t }⟩ :
          BaseAnalyzer Nat Nat)
        (fun _ => true) (fun _ => true) none
        { collected_data :=
            some { models := [], papers := [], repos := [],
                   hf_models := [1, 2, 3], errors := [] },
          insight_state := ⟨.success, some { status := .success, result := some 7 }⟩,
          model_state := ⟨.pending, none⟩,
          model_last_results := [] }).1).insight_report =
      some { path := some "reports/insight.pptx", title := "AI Insight Report",
             status := "completed" } := by
  exact (c10_stale_last_result Nat Nat Nat []
      ⟨"insight_analyzer", fun _ => .exn "LLM unavailable"⟩
      ⟨"model_analyzer", fun t => .ok { status := .success, result := some t }⟩
      (fun _ => true) (fun _ => true) none
      { collected_data :=
          some { models := [], papers := [], repos := [],
                 hf_models := [1, 2, 3], errors := [] },
        insight_state := ⟨.success, some { status := .success, result := some 7 }⟩,
        model_state := ⟨.pending, none⟩,
        model_last_results := [] }
      { models := [], papers := [], repos := [], hf_models := [1, 2, 3], errors := [] }
      "LLM unavailable"
      (fun _ =>
        .ok { file_path := some "reports/insight.pptx", title := "AI Insight Report",
              status := "completed" })
      (fun _ => .ok { file_path := none, title := "model", status := "completed" })
      (fun _ => "model") rfl rfl).2
    { status := .success, result := some 7 } 7
    { file_path := some "reports/insight.pptx", title := "AI Insight Report",
      status := "completed" }
    rfl rfl rfl rfl

end AIInsight
